import Mathlib

/-!
Verification of the apifunc pipeline framework (`src/apifunc/apifunc.py`,
`src/apifunc/components.py`) against its natural-language specification.

The Python code is shallowly embedded: Python values that flow through a
pipeline are modelled by the inductive type `Value`; a Python exception is a
`PyErr`; code that can raise returns `Except PyErr _`.  Each Lean definition
carries a comment naming the Python function it embeds.
-/

set_option autoImplicit false

/-- Python values that flow through the pipeline: strings, integers,
dictionaries with string keys (later entries shadow earlier ones on lookup),
bytes (modelled as a list of byte values) and `None`. -/
inductive Value where
  | str (s : String)
  | int (n : Int)
  | dict (entries : List (String × Value))
  | bytes (bs : List Nat)
  | none

/-- Python exceptions relevant to the embedded code: a generic raised
exception carrying its message, and a `TypeError` raised by the calling
convention (wrong number of arguments, unexpected/missing keyword). -/
inductive PyErr where
  | exc (msg : String)
  | typeError (msg : String)
deriving Repr, DecidableEq

/-- Test whether a `Value` is a Python `dict` (`isinstance(input_data, dict)`). -/
def Value.isDict : Value → Bool
  | .dict _ => true
  | _ => false

/-- Entries of a dictionary value; the empty list on non-dictionaries. -/
def Value.dictEntries : Value → List (String × Value)
  | .dict es => es
  | _ => []

/-- Embeds `DynamicgRPCComponent` of `apifunc.py`: it wraps a transformation
function, a port, and the server handle created by `start_grpc_server`
(`None` until then).  The transformation function is modelled extensionally,
by what calling it on the pipeline datum returns or raises. -/
structure DynamicgRPCComponent where
  transform_func : Value → Except PyErr Value
  port : Nat
  server : Option Nat

/-- Embeds `DynamicgRPCComponent.process` of `apifunc.py` (lines 238-248):
`return self.transform_func(data)`. -/
def DynamicgRPCComponent.process (c : DynamicgRPCComponent) (data : Value) :
    Except PyErr Value :=
  c.transform_func data

/-- Embeds `PipelineOrchestrator` of `apifunc.py`: an ordered list of
components and the list of server handles collected by `start_servers`. -/
structure PipelineOrchestrator where
  components : List DynamicgRPCComponent
  servers : List Nat

/-- Embeds `PipelineOrchestrator.__init__`: empty component and server lists. -/
def PipelineOrchestrator.new : PipelineOrchestrator :=
  { components := [], servers := [] }

/-- Embeds `PipelineOrchestrator.add_component`: appends and returns `self`. -/
def PipelineOrchestrator.add_component (p : PipelineOrchestrator)
    (component : DynamicgRPCComponent) : PipelineOrchestrator :=
  { p with components := p.components ++ [component] }

/-- The `for component in self.components: current_data = component.process(current_data)`
loop of `PipelineOrchestrator.execute_pipeline`.  A raised exception in
`process` propagates out of the loop at once, exactly as in Python. -/
def executeLoop : List DynamicgRPCComponent → Value → Except PyErr Value
  | [], current_data => .ok current_data
  | component :: rest, current_data =>
    match component.process current_data with
    | .ok next => executeLoop rest next
    | .error e => .error e

/-- Embeds `PipelineOrchestrator.execute_pipeline` of `apifunc.py`
(lines 280-295). -/
def PipelineOrchestrator.execute_pipeline (p : PipelineOrchestrator)
    (initial_data : Value) : Except PyErr Value :=
  executeLoop p.components initial_data

/-- A component wrapping a pure (never-raising) transformation function. -/
def pureComponent (f : Value → Value) (port : Nat) : DynamicgRPCComponent :=
  { transform_func := fun v => .ok (f v), port := port, server := Option.none }

/-- A component whose transformation function always raises `e`. -/
def raisingComponent (e : PyErr) (port : Nat) : DynamicgRPCComponent :=
  { transform_func := fun _ => .error e, port := port, server := Option.none }

theorem executeLoop_cons_ok (c : DynamicgRPCComponent)
    (rest : List DynamicgRPCComponent) (x y : Value)
    (h : c.process x = .ok y) :
    executeLoop (c :: rest) x = executeLoop rest y := by
  simp [executeLoop, h]

theorem executeLoop_cons_error (c : DynamicgRPCComponent)
    (rest : List DynamicgRPCComponent) (x : Value) (e : PyErr)
    (h : c.process x = .error e) :
    executeLoop (c :: rest) x = .error e := by
  simp [executeLoop, h]

/-- Claim C1: an orchestrator holding exactly the two stages with pure
transforms `f1` then `f2`, added in that order, satisfies
`execute_pipeline x = f2 (f1 x)` for every input `x`: stages run strictly
in append order, each receiving the previous stage's output. -/
theorem C1_order_preservation (f1 f2 : Value → Value) (p1 p2 : Nat) (x : Value) :
    ((PipelineOrchestrator.new.add_component (pureComponent f1 p1)).add_component
        (pureComponent f2 p2)).execute_pipeline x = .ok (f2 (f1 x)) := by
  simp [PipelineOrchestrator.new, PipelineOrchestrator.add_component,
    PipelineOrchestrator.execute_pipeline, executeLoop, pureComponent,
    DynamicgRPCComponent.process]

/-- Claim C2: `execute_pipeline` on an orchestrator with zero stages returns
the input unchanged, for every input value (identity law). -/
theorem C2_identity_law (x : Value) :
    PipelineOrchestrator.new.execute_pipeline x = .ok x := by
  simp [PipelineOrchestrator.new, PipelineOrchestrator.execute_pipeline, executeLoop]

/-- First stage of the claim C3 scenario: succeeds, passing its input on. -/
def c3Stage1 : DynamicgRPCComponent := pureComponent (fun v => v) 50051

/-- Second stage of the claim C3 scenario: raises the exception `boom`. -/
def c3Stage2 : DynamicgRPCComponent := raisingComponent (.exc "boom") 50052

/-- Third stage of the claim C3 scenario: would produce a marker value,
observable if the stage were ever invoked. -/
def c3Stage3 : DynamicgRPCComponent :=
  pureComponent (fun _ => .str "stage3 ran") 50053

/-- Three-stage pipeline whose second stage raises. -/
def c3Pipeline : PipelineOrchestrator :=
  ((PipelineOrchestrator.new.add_component c3Stage1).add_component
      c3Stage2).add_component c3Stage3

/-- The same stages with the raising stage moved to the first position. -/
def c3PipelineAlt : PipelineOrchestrator :=
  ((PipelineOrchestrator.new.add_component c3Stage2).add_component
      c3Stage1).add_component c3Stage3

/-- Claim C3 counterexample: in a 3-stage pipeline whose second stage raises
`exc "boom"`, `execute_pipeline` propagates exactly the raw exception
`exc "boom"`.  The propagated error carries no stage annotation: the very
same error results when the identical failing stage sits at position 1
instead of position 2, and its message contains no character `2` (components
of `apifunc.py` have no name attribute, and the loop in `execute_pipeline`
adds nothing to a raised exception), so the error identifies the failing
stage neither by index nor by name, contrary to the claim. -/
theorem C3_counterexample :
    c3Pipeline.execute_pipeline (.str "x") = .error (.exc "boom")
    ∧ c3PipelineAlt.execute_pipeline (.str "x") = .error (.exc "boom")
    ∧ "boom".toList.contains '2' = false :=
  ⟨rfl, rfl, by decide⟩

/-- Claim C3 (amended): in a 3-stage pipeline where stage 1 succeeds and
stage 2 raises `e`, `execute_pipeline` aborts immediately: it propagates
stage 2's raw exception `e` unchanged — with no stage index or name
annotation — returns no partial result, and never invokes stage 3 (the
outcome is independent of the third component, which is universally
quantified here). -/
theorem C3_abort_on_stage2_failure (c1 c2 c3 : DynamicgRPCComponent)
    (x y : Value) (e : PyErr)
    (h1 : c1.process x = .ok y) (h2 : c2.process y = .error e) :
    (((PipelineOrchestrator.new.add_component c1).add_component
        c2).add_component c3).execute_pipeline x = .error e := by
  simp [PipelineOrchestrator.new, PipelineOrchestrator.add_component,
    PipelineOrchestrator.execute_pipeline, executeLoop, h1, h2]

/-- Claim C3 witness: the amended statement at the concrete scenario stages. -/
theorem C3_abort_on_stage2_failure_witness :
    (((PipelineOrchestrator.new.add_component c3Stage1).add_component
        c3Stage2).add_component c3Stage3).execute_pipeline (.str "x")
      = .error (.exc "boom") :=
  C3_abort_on_stage2_failure c3Stage1 c3Stage2 c3Stage3 (.str "x") (.str "x")
    (.exc "boom") rfl rfl

/-- A Python function as the stage machinery sees it: its name, its declared
parameter names in order, and its body, which receives the bound arguments as
`(parameter, value)` pairs in declaration order. -/
structure PyFunc where
  name : String
  params : List String
  body : List (String × Value) → Except PyErr Value

/-- Calling a Python function with positional arguments (`f(x)`): each
declared parameter is bound to the argument in the same position; a
`TypeError` is raised when the counts differ. -/
def callPositional (f : PyFunc) (args : List Value) : Except PyErr Value :=
  if f.params.length = args.length then f.body (f.params.zip args)
  else .error (.typeError "positional argument count mismatch")

/-- Calling a Python function with keyword arguments (`f(**d)`): every
declared parameter must be bound by key and every key must name a declared
parameter, else a `TypeError` is raised. -/
def callKwargs (f : PyFunc) (entries : List (String × Value)) : Except PyErr Value :=
  match f.params.mapM (fun p => (entries.lookup p).map (fun v => (p, v))) with
  | Option.some bound =>
    if entries.all (fun kv => f.params.contains kv.1) then f.body bound
    else .error (.typeError "unexpected keyword argument")
  | Option.none => .error (.typeError "missing keyword argument")

/-- Embeds `DynamicgRPCComponent.process` of `components.py` (lines 45-61):
`param_count = len(sig.parameters)`; if `param_count == 1` and the input is a
dict, call with the whole dict as the one positional argument; elif
`param_count > 1` and the input is a dict, call with the dict unpacked as
keyword arguments; else call with the input as the sole positional
argument. -/
def componentsProcess (func : PyFunc) (input_data : Value) : Except PyErr Value :=
  let param_count := func.params.length
  if param_count = 1 ∧ input_data.isDict then
    callPositional func [input_data]
  else if param_count > 1 ∧ input_data.isDict then
    callKwargs func input_data.dictEntries
  else
    callPositional func [input_data]

/-- Embeds `DynamicgRPCComponent.process` of `apifunc.py` (lines 238-248) at
the level of the Python calling convention: `return self.transform_func(data)`
calls the wrapped function with a single positional argument, whatever
the function declares and whatever the input is. -/
def apifuncProcess (func : PyFunc) (data : Value) : Except PyErr Value :=
  callPositional func [data]

/-- A two-parameter function `add(a, b)` returning the integer sum of its
arguments. -/
def c4Add : PyFunc :=
  { name := "add", params := ["a", "b"],
    body := fun bound =>
      match bound.lookup "a", bound.lookup "b" with
      | Option.some (.int a), Option.some (.int b) => .ok (.int (a + b))
      | _, _ => .error (.exc "arguments are not integers") }

/-- A one-parameter function returning its argument unchanged. -/
def c4Identity : PyFunc :=
  { name := "ident", params := ["data"],
    body := fun bound => .ok ((bound.lookup "data").getD Value.none) }

/-- Claim C4 counterexample: the claim quantifies over every stage, but the
`DynamicgRPCComponent.process` of `apifunc.py` never destructures a mapping:
wrapping the two-parameter function `add(a, b)` and invoking it with the
mapping `(a now 1, b now 2)` raises a `TypeError` (one positional argument
against two declared parameters) instead of the destructured call the claim
demands, which would succeed with `3`. -/
theorem C4_counterexample :
    apifuncProcess c4Add (Value.dict [("a", Value.int 1), ("b", Value.int 2)])
      = .error (.typeError "positional argument count mismatch")
    ∧ callKwargs c4Add [("a", Value.int 1), ("b", Value.int 2)]
      = .ok (Value.int 3) :=
  ⟨rfl, rfl⟩

/-- Claim C4 (amended): the dispatch policy as claimed holds for the
`DynamicgRPCComponent.process` of `components.py` — a single-parameter
function receives a mapping whole as its one argument; a function with more
than one parameter receives a mapping destructured by key; any other input
is passed verbatim as the sole positional argument — while the
`DynamicgRPCComponent.process` of `apifunc.py` always passes the input
verbatim as the sole positional argument, regardless of parameter count. -/
theorem C4_input_dispatch (func : PyFunc) (p : String) (x : Value) :
    (func.params = [p] → x.isDict = true →
      componentsProcess func x = func.body [(p, x)])
    ∧ (func.params.length > 1 → x.isDict = true →
      componentsProcess func x = callKwargs func x.dictEntries)
    ∧ (x.isDict = false → componentsProcess func x = callPositional func [x])
    ∧ apifuncProcess func x = callPositional func [x] := by
  refine ⟨?_, ?_, ?_, rfl⟩
  · intro hp hd
    simp [componentsProcess, hp, hd, callPositional]
  · intro hl hd
    have hne : func.params.length ≠ 1 := by omega
    simp [componentsProcess, hd, hne, hl]
  · intro hd
    simp [componentsProcess, hd]

/-- Claim C4 witness: the amended dispatch at concrete inputs — the
single-parameter branch on `ident` with the mapping `(a now 1)`. -/
theorem C4_input_dispatch_witness :
    componentsProcess c4Identity (Value.dict [("a", Value.int 1)])
      = .ok (Value.dict [("a", Value.int 1)]) := by
  have h := (C4_input_dispatch c4Identity "data"
    (Value.dict [("a", Value.int 1)])).1 rfl rfl
  rw [h]
  rfl

/-- Embeds Python `str.title()` on the identifier strings used here: an
alphabetic character is uppercased when the preceding character is not
alphabetic (or at the start) and lowercased otherwise; other characters pass
through and reset the state. -/
def pyTitleGo : Bool → List Char → List Char
  | _, [] => []
  | prevCased, c :: cs =>
    if c.isAlpha then
      (if prevCased then c.toLower else c.toUpper) :: pyTitleGo true cs
    else
      c :: pyTitleGo false cs

/-- Python `str.title()` as a function on strings. -/
def pyTitle (s : String) : String := ⟨pyTitleGo false s.toList⟩

/-- Embeds Python `str.replace("_", "")`: removes every underscore. -/
def removeUnderscores (s : String) : String :=
  ⟨s.toList.filter (fun c => c ≠ '_')⟩

/-- Embeds `service_name = func.__name__.title().replace("_", "")` in
`ApiFuncFramework._generate_proto_content` (line 90). -/
def service_name (funcName : String) : String :=
  removeUnderscores (pyTitle funcName)

/-- Generated contract text preceding the service name, exactly as in the
f-string of `_generate_proto_content`. -/
def protoHead : String :=
  "\n        syntax = \"proto3\";\n        package apifunc;\n        import \"google/protobuf/struct.proto\";\n\n        service "

/-- Generated contract text following the service name, exactly as in the
f-string of `_generate_proto_content`. -/
def protoTail : String :=
  " \x7b\n            rpc Transform (google.protobuf.Struct) returns (google.protobuf.Struct) \x7b\x7d\n        \x7d\n        "

/-- Embeds `ApiFuncFramework._generate_proto_content` (lines 80-100).  The
source reads nothing of the function but its `__name__`, so the contract
text is a function of the name. -/
def generate_proto_content (funcName : String) : String :=
  protoHead ++ service_name funcName ++ protoTail

/-- Modelled from the spec's words for claim C5: Python `str.capitalize()`
(first character uppercased, the rest lowercased). -/
def pyCapitalize (s : String) : String :=
  match s.toList with
  | [] => ""
  | c :: cs => ⟨c.toUpper :: cs.map Char.toLower⟩

/-- Modelled from the spec's words for claim C5: the claimed service-name
scheme, the capitalized function name followed by the `"Service"` suffix. -/
def claimedServiceName (funcName : String) : String :=
  pyCapitalize funcName ++ "Service"

/-- Claim C5 counterexample: for the registered function `json_to_html`, the
service name written into the contract text is `JsonToHtml` — the title-cased
name with underscores removed and no suffix — not the claimed
`Json_to_htmlService`; in particular the written name lacks the `"Service"`
suffix entirely. -/
theorem C5_counterexample :
    service_name "json_to_html" = "JsonToHtml"
    ∧ claimedServiceName "json_to_html" = "Json_to_htmlService"
    ∧ service_name "json_to_html" ≠ claimedServiceName "json_to_html"
    ∧ generate_proto_content "json_to_html" = protoHead ++ "JsonToHtml" ++ protoTail :=
  ⟨rfl, rfl, by decide, rfl⟩

/-- Claim C5 (amended): for every registered function, the service name
written into the generated contract text is the function's name title-cased
with all underscores removed; no `"Service"` suffix is appended. -/
theorem C5_service_name_scheme (funcName : String) :
    generate_proto_content funcName
      = protoHead ++ removeUnderscores (pyTitle funcName) ++ protoTail := rfl

/-- Embeds the call `self._generate_proto_content(func)` on a registered
function: the source uses only `func.__name__`. -/
def generate_proto_content_of (func : PyFunc) : String :=
  generate_proto_content func.name

/-- Claim C6: contract generation is deterministic and a pure function of
the descriptor — two functions with identical name and parameters yield
byte-identical contract text (the text in fact depends on the name alone;
the embedding as a total Lean function carries the absence of side
effects). -/
theorem C6_contract_determinism (f g : PyFunc) (hname : f.name = g.name)
    (hparams : f.params = g.params) :
    generate_proto_content_of f = generate_proto_content_of g := by
  simp [generate_proto_content_of, hname]

/-- A registered function for the determinism witness. -/
def c6FuncA : PyFunc :=
  { name := "upper", params := ["s"], body := fun _ => .ok (.str "A") }

/-- A second registered function with the same name and parameters as
`c6FuncA` but a different body. -/
def c6FuncB : PyFunc :=
  { name := "upper", params := ["s"], body := fun _ => .ok (.str "B") }

/-- Claim C6 witness: two concrete functions agreeing on name and parameters
produce byte-identical contract text. -/
theorem C6_contract_determinism_witness :
    generate_proto_content_of c6FuncA = generate_proto_content_of c6FuncB :=
  C6_contract_determinism c6FuncA c6FuncB rfl rfl

/-- Errors the lifecycle claim speaks about.  `alreadyRunning` stands for the
spec's `AlreadyRunningError`; no class of that name exists anywhere in the
repository and nothing raises it — the constructor exists so the claim can
be stated.  `other` covers any other raised exception. -/
inductive LifecycleErr where
  | alreadyRunning
  | other (msg : String)
deriving Repr, DecidableEq

/-- State of the gRPC servers created so far: each handle paired with its
running flag, plus a counter supplying fresh handles. -/
structure ServerPool where
  running : List (Nat × Bool)
  next : Nat
deriving Repr, DecidableEq

/-- Embeds `grpc.server(...)` plus `server.start()` inside
`ApiFuncFramework.start_server`: allocates a fresh handle in the running
state. -/
def ServerPool.startNew (pool : ServerPool) : ServerPool × Nat :=
  ({ running := (pool.next, true) :: pool.running, next := pool.next + 1 },
   pool.next)

/-- Embeds `server.stop(0)` of the gRPC runtime: marks the handle not
running; a second stop on the same handle leaves it stopped and raises
nothing (grpc's `stop` is accepted on a stopped server). -/
def ServerPool.stop (pool : ServerPool) (handle : Nat) : ServerPool :=
  { pool with
    running := pool.running.map (fun hw => if hw.1 = handle then (hw.1, false) else hw) }

/-- Embeds `DynamicgRPCComponent.start_grpc_server` of `apifunc.py`
(lines 250-255) at the lifecycle level (its registration side effects are
modelled separately by `register_function`): it reads no running flag and
unconditionally builds a fresh framework, registers the function, starts a
new server, and overwrites `self.server` with the new handle.  The call
never raises a lifecycle error. -/
def DynamicgRPCComponent.start_grpc_server (c : DynamicgRPCComponent)
    (pool : ServerPool) :
    Except LifecycleErr (DynamicgRPCComponent × ServerPool × Nat) :=
  let started := pool.startNew
  .ok ({ c with server := Option.some started.2 }, started.1, started.2)

/-- Embeds `PipelineOrchestrator.stop_servers` of `apifunc.py`
(lines 302-304): `for server in self.servers: server.stop(0)`; raises
nothing. -/
def PipelineOrchestrator.stop_servers (p : PipelineOrchestrator)
    (pool : ServerPool) : Except LifecycleErr ServerPool :=
  .ok (p.servers.foldl (fun acc handle => acc.stop handle) pool)

/-- An endpoint for the lifecycle counterexample. -/
def c7Component : DynamicgRPCComponent := pureComponent (fun v => v) 50051

/-- The empty server pool. -/
def c7Pool : ServerPool := { running := [], next := 0 }

/-- Component state after the first start: handle `0` stored. -/
def c7AfterFirst : DynamicgRPCComponent :=
  { c7Component with server := Option.some 0 }

/-- Pool state after the first start. -/
def c7PoolAfterFirst : ServerPool := { running := [(0, true)], next := 1 }

/-- Claim C7 counterexample: starting the same endpoint a second time while
its first server is still running does not raise `AlreadyRunningError` — it
returns normally, starting a second server and overwriting the stored
handle with the new one. -/
theorem C7_counterexample :
    c7Component.start_grpc_server c7Pool = .ok (c7AfterFirst, c7PoolAfterFirst, 0)
    ∧ c7AfterFirst.start_grpc_server c7PoolAfterFirst
      = .ok ({ c7Component with server := Option.some 1 },
             { running := [(1, true), (0, true)], next := 2 }, 1)
    ∧ c7AfterFirst.start_grpc_server c7PoolAfterFirst
      ≠ .error LifecycleErr.alreadyRunning := by
  refine ⟨rfl, rfl, by
    simp [DynamicgRPCComponent.start_grpc_server, ServerPool.startNew]⟩

/-- Entries of the running list are unchanged by a second identical stop. -/
theorem stopEntry_idem (handle : Nat) (hw : Nat × Bool) :
    (fun kv : Nat × Bool => if kv.1 = handle then (kv.1, false) else kv)
        ((fun kv : Nat × Bool => if kv.1 = handle then (kv.1, false) else kv) hw)
      = (fun kv : Nat × Bool => if kv.1 = handle then (kv.1, false) else kv) hw := by
  by_cases h : hw.1 = handle <;> simp [h]

/-- Claim C7 (amended): `start_grpc_server` never raises — a second start
returns normally, allocating a fresh running server and overwriting the
stored handle; `stop_servers` on an orchestrator that never started servers
is a no-op that raises nothing; and stopping an already-stopped server
leaves the pool exactly as one stop left it. -/
theorem C7_lifecycle (c : DynamicgRPCComponent) (pool : ServerPool)
    (handle : Nat) :
    c.start_grpc_server pool
      = .ok ({ c with server := Option.some pool.next },
             { running := (pool.next, true) :: pool.running, next := pool.next + 1 },
             pool.next)
    ∧ PipelineOrchestrator.new.stop_servers pool = .ok pool
    ∧ (pool.stop handle).stop handle = pool.stop handle := by
  refine ⟨rfl, rfl, ?_⟩
  simp only [ServerPool.stop, List.map_map]
  refine congrArg (fun l => ServerPool.mk l pool.next) ?_
  exact List.map_congr_left (fun hw _ => stopEntry_idem handle hw)

/-- Outcome of the external `grpc_tools.protoc.main(protoc_args)` call as
seen from `_compile_proto`: the entry point either returns a status code
(its return value is not inspected by the source) or raises `SystemExit`
carrying a code. -/
inductive ProtocOutcome where
  | ret (code : Int)
  | sysExit (code : Int)
deriving Repr, DecidableEq

/-- Errors for the compilation claim.  `runtimeError` is the `RuntimeError`
the source raises, carrying the toolchain exit code interpolated into its
message; `compilationError` stands for the spec's `CompilationError`, which
no code in the repository defines or raises — the constructor exists so the
claim can be stated. -/
inductive CompileErr where
  | runtimeError (exitCode : Int)
  | compilationError (exitCode : Int)
deriving Repr, DecidableEq

/-- Embeds `ApiFuncFramework._compile_proto` (lines 102-132): the `protoc`
invocation sits in `try/except SystemExit`; a `SystemExit` with non-zero
code becomes a raised `RuntimeError` carrying that code; every other
outcome — including a non-zero status merely returned by
`grpc_tools.protoc.main` — leaves the function returning normally. -/
def compile_proto (outcome : ProtocOutcome) : Except CompileErr Unit :=
  match outcome with
  | .ret _ => .ok ()
  | .sysExit code => if code ≠ 0 then .error (.runtimeError code) else .ok ()

/-- Claim C8 counterexample: on a toolchain failure signalled by
`SystemExit(1)`, `_compile_proto` raises a `RuntimeError` — there is no
`CompilationError` in the repository — and on a failure signalled by the
entry point returning `1` (the toolchain's exit-code convention when it does
not raise), `_compile_proto` returns normally, against the claim that it
never returns normally on a non-zero toolchain exit. -/
theorem C8_counterexample :
    compile_proto (.sysExit 1) = .error (.runtimeError 1)
    ∧ compile_proto (.sysExit 1) ≠ .error (.compilationError 1)
    ∧ compile_proto (.ret 1) = .ok () :=
  ⟨rfl, by simp [compile_proto], rfl⟩

/-- Claim C8 (amended): `_compile_proto` raises a `RuntimeError` carrying the
toolchain's exit code exactly when the toolchain raises `SystemExit` with a
non-zero code; a zero-code `SystemExit` and any status merely returned by
the toolchain entry point (the return value is never inspected) leave it
returning normally, and no `CompilationError` type exists to be raised. -/
theorem C8_compile_failure (code : Int) (h : code ≠ 0) :
    compile_proto (.sysExit code) = .error (.runtimeError code)
    ∧ compile_proto (.sysExit 0) = .ok ()
    ∧ compile_proto (.ret code) = .ok () :=
  ⟨by simp [compile_proto, h], rfl, rfl⟩

/-- Claim C8 witness: the amended statement at exit code 2. -/
theorem C8_compile_failure_witness :
    compile_proto (.sysExit 2) = .error (.runtimeError 2) :=
  (C8_compile_failure 2 (by decide)).1

/-- Embeds the Python dict assignment
`self.registered_functions[func.__name__] = func`: the new binding shadows
any earlier binding of the same key on lookup. -/
def dictInsert (d : List (String × PyFunc)) (key : String) (func : PyFunc) :
    List (String × PyFunc) :=
  (key, func) :: d

/-- Embeds `os.path.join` for the directory/filename pairs used here. -/
def os_path_join (dir file : String) : String := dir ++ "/" ++ file

/-- State touched by `register_function`: the framework instance's registry
and the filesystem, a path-to-content map where later writes shadow earlier
ones on lookup. -/
structure Framework where
  registered_functions : List (String × PyFunc)
  files : List (String × String)

/-- Embeds `ApiFuncFramework._generate_proto` (lines 65-78): writes the
generated contract text to `<proto_dir>/<name>.proto`, silently overwriting
any file already there (the file is opened with mode `"w"`). -/
def generate_proto (fw : Framework) (func : PyFunc) (proto_dir : String) :
    Framework :=
  { fw with
    files := (os_path_join proto_dir (func.name ++ ".proto"),
        generate_proto_content func.name) :: fw.files }

/-- Embeds `ApiFuncFramework.register_function` (lines 50-63): records the
function in the registry under its name — a plain dict assignment, with no
duplicate check — then generates the contract file and compiles it; the only
raise path is the compilation step, whose toolchain outcome is a
parameter. -/
def register_function (fw : Framework) (func : PyFunc)
    (proto_dir generated_dir : String) (outcome : ProtocOutcome) :
    Except CompileErr Framework :=
  let fw1 := { fw with
    registered_functions := dictInsert fw.registered_functions func.name func }
  let fw2 := generate_proto fw1 func proto_dir
  match compile_proto outcome with
  | .ok _ => .ok fw2
  | .error e => .error e

/-- Claim C9: registering a second function under the same name into the
same registry and output directory raises no error and silently overwrites
the first registration: afterwards the registry lookup under that name
yields the second function and the generated contract file holds the second
function's contract text. -/
theorem C9_silent_overwrite (fw : Framework) (f g : PyFunc)
    (proto_dir generated_dir : String) (hname : f.name = g.name) :
    ∃ fw2,
      (register_function fw f proto_dir generated_dir (.ret 0)).bind
          (fun fw1 => register_function fw1 g proto_dir generated_dir (.ret 0))
        = .ok fw2
      ∧ fw2.registered_functions.lookup f.name = Option.some g
      ∧ fw2.files.lookup (os_path_join proto_dir (f.name ++ ".proto"))
        = Option.some (generate_proto_content g.name) := by
  refine ⟨_, rfl, ?_, ?_⟩
  · simp [register_function, generate_proto, dictInsert, compile_proto, hname,
      List.lookup]
  · simp [register_function, generate_proto, dictInsert, compile_proto, hname,
      List.lookup]

/-- First registration for the claim C9 witness. -/
def c9First : PyFunc :=
  { name := "dup", params := ["data"], body := fun _ => .ok (.str "first") }

/-- Second registration for the claim C9 witness: same name, different
body. -/
def c9Second : PyFunc :=
  { name := "dup", params := ["data"], body := fun _ => .ok (.str "second") }

/-- Claim C9 witness: the overwrite at a concrete pair of functions. -/
theorem C9_silent_overwrite_witness :
    ∃ fw2,
      (register_function ⟨[], []⟩ c9First "proto" "generated" (.ret 0)).bind
          (fun fw1 => register_function fw1 c9Second "proto" "generated" (.ret 0))
        = .ok fw2
      ∧ fw2.registered_functions.lookup c9First.name = Option.some c9Second
      ∧ fw2.files.lookup (os_path_join "proto" (c9First.name ++ ".proto"))
        = Option.some (generate_proto_content c9Second.name) :=
  C9_silent_overwrite ⟨[], []⟩ c9First c9Second "proto" "generated" rfl

/-- Character-list test that `pre` is a prefix of `s` (Python
`str.startswith`). -/
def strHasPrefix (s pre : String) : Bool :=
  pre.toList.isPrefixOf s.toList

/-- Character-list drop of the first `n` characters of `s`. -/
def strDropChars (s : String) (n : Nat) : String :=
  ⟨s.toList.drop n⟩

/-- Embeds `os.path.abspath` for the relative `"./dir"` paths the
configuration defaults use, resolved against the process working
directory. -/
def os_path_abspath (cwd : String) (path : String) : String :=
  if strHasPrefix path "./" then cwd ++ "/" ++ strDropChars path 2
  else if strHasPrefix path "/" then path
  else cwd ++ "/" ++ path

/-- Embeds the Python idiom `value or default` on an optional string
argument: `None` and the empty string (both falsy) select the default. -/
def pyOrString (value : Option String) (default : String) : String :=
  match value with
  | Option.none => default
  | Option.some s => if s = "" then default else s

/-- Embeds the `ApiFuncConfig` attributes set by its `__init__`. -/
structure ApiFuncConfig where
  proto_dir : String
  generated_dir : String
  port : Int
deriving Repr, DecidableEq

/-- Embeds `ApiFuncConfig.__init__` (lines 22-33), parameterized by the
working directory `os.path.abspath` resolves against.  The Python defaults
are `proto_dir=None`, `generated_dir=None`, `port=50051`; the two directory
arguments pass through `value or default`, the port is stored directly. -/
def ApiFuncConfig.init (cwd : String) (proto_dir generated_dir : Option String)
    (port : Int) : ApiFuncConfig :=
  { proto_dir := pyOrString proto_dir (os_path_abspath cwd "./proto"),
    generated_dir := pyOrString generated_dir (os_path_abspath cwd "./generated"),
    port := port }

/-- Claim C10 counterexample: an explicitly supplied empty-string
`proto_dir` is not stored unchanged — the falsiness-based fallback
`proto_dir or os.path.abspath("./proto")` replaces it with the default. -/
theorem C10_counterexample :
    (ApiFuncConfig.init "/app" (Option.some "") Option.none 50051).proto_dir
      = "/app/proto"
    ∧ (ApiFuncConfig.init "/app" (Option.some "") Option.none 50051).proto_dir
      ≠ "" :=
  ⟨rfl, by decide⟩

/-- Claim C10 (amended): constructing a configuration with no arguments
yields the defaults — port `50051`, `proto_dir` the absolute path of
`./proto`, `generated_dir` the absolute path of `./generated` — and
explicitly supplied non-empty directory strings and any supplied port are
stored unchanged; a supplied empty string, being falsy, falls back to the
default. -/
theorem C10_config_defaults (cwd s t : String) (port : Int)
    (hs : s ≠ "") (ht : t ≠ "") :
    ApiFuncConfig.init cwd Option.none Option.none 50051
      = { proto_dir := os_path_abspath cwd "./proto",
          generated_dir := os_path_abspath cwd "./generated",
          port := 50051 }
    ∧ ApiFuncConfig.init cwd (Option.some s) (Option.some t) port
      = { proto_dir := s, generated_dir := t, port := port } := by
  constructor
  · rfl
  · simp [ApiFuncConfig.init, pyOrString, hs, ht]

/-- Claim C10 witness: the amended statement at concrete values. -/
theorem C10_config_defaults_witness :
    ApiFuncConfig.init "/app" (Option.some "/p") (Option.some "/g") 50055
      = { proto_dir := "/p", generated_dir := "/g", port := 50055 } :=
  (C10_config_defaults "/app" "/p" "/g" 50055 (by decide) (by decide)).2
